import Mathlib

/-!
Shallow embedding of `src/server.js` (garden-voice-assistant backend).

The server exposes five HTTP endpoints; the logic embedded here covers:
* the recommended-products extraction of `POST /api/get-response`
  (`availableProducts.filter(...).slice(0, 3)`),
* the Airtable record normalization of `POST /api/search-products`,
* the `filterFormula` string builder of `POST /api/search-products`,
* the error-handling structure of the four provider-backed endpoints,
* the transcript extraction of `POST /api/transcribe`,
* the chat-message assembly of `POST /api/get-response`.

Strings are modelled by Lean `String` (a wrapper over `List Char`);
substring tests are carried out on the underlying character lists.
-/

namespace GardenVoice

/-- Boolean test: `leadsWith needle hay = true` iff `hay` starts with
`needle` (character-list version of a string `startsWith`). -/
def leadsWith : List Char → List Char → Bool
  | [], _ => true
  | _ :: _, [] => false
  | a :: n, b :: h => if a = b then leadsWith n h else false

/-- Boolean test: `containsSub needle hay = true` iff `needle` occurs as a
contiguous substring of `hay`; models JavaScript `hay.includes(needle)`. -/
def containsSub (needle : List Char) : List Char → Bool
  | [] => needle.isEmpty
  | b :: h => leadsWith needle (b :: h) || containsSub needle h

/-!  ### `POST /api/get-response`: recommended-products extraction

```js
const recommendedProducts = availableProducts.filter(product =>
  aiResponse.toLowerCase().includes(product.title.toLowerCase())
);
res.json({ text: aiResponse, recommendedProducts: recommendedProducts.slice(0, 3) });
```
-/

/-- A caller-supplied product as used by `/api/get-response`: the handler
only reads `.title`; `payload` stands for the rest of the JSON object,
which is passed through untouched. -/
structure AvailProduct where
  title : String
  payload : Nat
deriving DecidableEq, Repr

/-- Character-wise lowercasing, modelling `String.prototype.toLowerCase`. -/
def lowerChars (s : String) : List Char :=
  s.data.map Char.toLower

/-- The filter predicate
`aiResponse.toLowerCase().includes(product.title.toLowerCase())`. -/
def mentioned (aiResponse : String) (product : AvailProduct) : Bool :=
  containsSub (lowerChars product.title) (lowerChars aiResponse)

/-- The expression `availableProducts.filter(...).slice(0, 3)` from the
handler. -/
def recommendedProducts (aiResponse : String) (availableProducts : List AvailProduct) :
    List AvailProduct :=
  (availableProducts.filter (mentioned aiResponse)).take 3

/-!  ### `POST /api/search-products`: record normalization

```js
const products = records.map(record => ({
  id: record.id,
  product_id: record.get('product_id'),
  ...
  bag_size_cf: record.get('bag-size-cf'),
  ...
  use_case: record.get('use-case'),
  voice_script_30S: record.get('voice_script_30S')
}));
```
-/

/-- An Airtable record: its `id` plus `record.get(name)`, which yields the
field's value or `undefined` (modelled as `Option String`). -/
structure StoreRecord where
  id : String
  fields : String → Option String

/-- The object literal built for each record, as an ordered key/value list
(a JavaScript object literal with these thirteen keys).  The `id` entry
holds `record.id`; every other entry holds `record.get(...)`. -/
def normalizeRecord (record : StoreRecord) : List (String × Option String) :=
  [("id", some record.id),
   ("product_id", record.fields "product_id"),
   ("title", record.fields "title"),
   ("brand", record.fields "brand"),
   ("category", record.fields "category"),
   ("tags", record.fields "tags"),
   ("short_description", record.fields "short_description"),
   ("price", record.fields "price"),
   ("bag_size_cf", record.fields "bag-size-cf"),
   ("in_stock", record.fields "in_stock"),
   ("image_url", record.fields "image_url"),
   ("use_case", record.fields "use-case"),
   ("voice_script_30S", record.fields "voice_script_30S")]

/-- The field names the code actually produces, in object-literal order. -/
def normalizedFieldNames : List String :=
  ["id", "product_id", "title", "brand", "category", "tags",
   "short_description", "price", "bag_size_cf", "in_stock",
   "image_url", "use_case", "voice_script_30S"]

/-- Modelled from the spec: the field names the specification claims for the
normalized Product record ("{id, product_id, title, brand, category, tags,
short_description, price, bag_size, in_stock, image_url, use_case,
voice_script}").  Kept separate from `normalizedFieldNames` so the two can
be compared. -/
def claimedFieldNames : List String :=
  ["id", "product_id", "title", "brand", "category", "tags",
   "short_description", "price", "bag_size", "in_stock",
   "image_url", "use_case", "voice_script"]

/-!  ### `POST /api/search-products`: filter-formula builder

```js
let filterFormula = "AND({in_stock} = TRUE()";
if (category) { filterFormula += `, {category} = '${category}'`; }
if (tags && tags.length > 0) {
  const tagConditions = tags.map(tag => `FIND('${tag}', {tags})`).join(', ');
  filterFormula += `, OR(${tagConditions})`;
}
filterFormula += ")";
```
-/

/-- JavaScript truthiness of `req.body.category`: `undefined` and the empty
string are falsy; a non-empty string is truthy. -/
def truthy : Option String → Bool
  | none => false
  | some s => !s.isEmpty

/-- The guard `tags && tags.length > 0` on `req.body.tags`. -/
def tagsPresent : Option (List String) → Bool
  | none => false
  | some ts => decide (0 < ts.length)

/-- Models `Array.prototype.join(', ')` on a list of strings. -/
def joinComma : List String → String
  | [] => ""
  | [s] => s
  | s :: rest => s ++ ", " ++ joinComma rest

/-- The per-tag template `` `FIND('${tag}', {tags})` ``. -/
def tagCondition (tag : String) : String :=
  "FIND(\x27" ++ tag ++ "\x27, {tags})"

/-- The category clause template `` `{category} = '${category}'` ``
(without the leading comma, which is appended by `filterFormula`). -/
def categoryClause (category : String) : String :=
  "{category} = \x27" ++ category ++ "\x27"

/-- The complete `filterFormula` string built by the handler. -/
def filterFormula (category : Option String) (tags : Option (List String)) : String :=
  let f0 := "AND({in_stock} = TRUE()"
  let f1 := if truthy category then f0 ++ ", " ++ categoryClause (category.getD "") else f0
  let f2 :=
    if tagsPresent tags then
      f1 ++ ", OR(" ++ joinComma ((tags.getD []).map tagCondition) ++ ")"
    else f1
  f2 ++ ")"

/-- A quote-delimiter scanner for the store's formula language: a single
quote toggles string-literal state.  The result is the state at the end of
the input. -/
def scanQuote : Bool → List Char → Bool
  | inStr, [] => inStr
  | inStr, c :: rest => scanQuote (if c = '\x27' then !inStr else inStr) rest

/-- Malformedness test: `unterminatedQuote s = true` iff scanning `s` ends
inside an open single-quoted string literal, so `s` is not a well-formed
formula of the store's formula language. -/
def unterminatedQuote (s : String) : Bool :=
  scanQuote false s.data

/-- The parameters of the Airtable `select` call made by the handler. -/
structure SelectParams where
  filterByFormula : String
  maxRecords : Nat
  sortField : String
  sortDirection : String
deriving DecidableEq, Repr

/-- The body of `POST /api/search-products` as received
(`const { query, category, tags } = req.body`). -/
structure SearchRequest where
  query : Option String
  category : Option String
  tags : Option (List String)

/-- The `select` parameters the handler derives from a request: the built
filter formula, `maxRecords: 10`, and an ascending sort on `title`.
The `query` field of the request is never read. -/
def searchParams (r : SearchRequest) : SelectParams :=
  { filterByFormula := filterFormula r.category r.tags
    maxRecords := 10
    sortField := "title"
    sortDirection := "asc" }

/-!  ### HTTP responses and the four provider-backed handlers

Each handler is a `try { ... provider call ... res.json(...) } catch { ...
res.status(500).json({ error: <fixed message> }) }` block.  The provider
round-trip is modelled by an `Except Unit α` argument: `.error ()` stands
for a thrown error or non-2xx reply; `.ok` carries the parsed response
body, whose optional components model fields that may be absent.  In
JavaScript, reading a property of `undefined` throws (and lands in the
same `catch`), but reading a missing property of an existing object
merely yields `undefined` — the two cases are kept distinct below. -/

/-- An Express response body, tagged by which endpoint produced it.
`transcriptJson none` is `res.json({ transcript: undefined })`: JSON
serialization drops the `undefined` field, so the wire body is `{}`. -/
inductive RespBody where
  | transcriptJson (transcript : Option String)
  | productsJson (products : List (List (String × Option String)))
  | aiJson (text : String) (recommendedList : List AvailProduct)
  | audioBody (bytes : List Nat)
  | errorJson (error : String)
deriving DecidableEq

/-- An HTTP response: status code plus body. -/
structure HttpResponse where
  status : Nat
  body : RespBody
deriving DecidableEq

/-- Models `res.status(500).json({ error: msg })`. -/
def err500 (msg : String) : HttpResponse :=
  ⟨500, .errorJson msg⟩

/-- One alternative in a Deepgram reply; the `transcript` field may itself
be absent (`undefined`), which a property read yields without throwing. -/
structure DgAlternative where
  transcript : Option String

/-- One channel in a Deepgram reply (`{ alternatives }`). -/
structure DgChannel where
  alternatives : List DgAlternative

/-- The `results` object of a Deepgram reply (`{ channels }`). -/
structure DgResults where
  channels : List DgChannel

/-- A parsed Deepgram response body; `results` may be absent. -/
structure DgResponse where
  results : Option DgResults

/-- The access path `response.data.results.channels[0].alternatives[0].transcript`.
The outer `Option` is `none` when one of the intermediate reads throws
(`results` absent, `channels` empty, `alternatives` empty: each leaves the
next read operating on `undefined`); the final `.transcript` read never
throws, so a reachable `alternatives[0]` yields `some` of its (possibly
absent) transcript value. -/
def extractTranscript (d : DgResponse) : Option (Option String) :=
  d.results.bind fun r =>
    r.channels.head?.bind fun ch =>
      ch.alternatives.head?.map DgAlternative.transcript

/-- The `POST /api/transcribe` try/catch around the provider call: a thrown
access lands in the `catch`; otherwise `res.json({ transcript })` answers
200 with whatever value (possibly `undefined`) the path yielded. -/
def transcribeHandler (call : Except Unit DgResponse) : HttpResponse :=
  match call with
  | .error _ => err500 "Transcription failed"
  | .ok d =>
    match extractTranscript d with
    | none => err500 "Transcription failed"
    | some t => ⟨200, .transcriptJson t⟩

/-- The multipart file `req.file` (absent when no `audio` field was sent). -/
structure UploadedFile where
  buffer : List Nat

/-- Full `POST /api/transcribe` including the `req.file.buffer` read that
precedes the outbound call.  Returns the response paired with whether the
provider was called: when `req.file` is absent, `req.file.buffer` throws
inside the `try` before `axios.post` runs, so no call is made and the
`catch` block answers. -/
def transcribeEndpoint (file : Option UploadedFile) (call : Except Unit DgResponse) :
    HttpResponse × Bool :=
  match file with
  | none => (err500 "Transcription failed", false)
  | some _ => (transcribeHandler call, true)

/-- A chat message `{ role, content }`. -/
structure ChatMessage where
  role : String
  content : String
deriving DecidableEq

/-- Everything of the `systemPrompt` template literal that precedes
`Current customer question: `.  `productsJson` stands for
`JSON.stringify(availableProducts, null, 2)`, the serialized product
list spliced into the template. -/
def promptHeader (productsJson : String) : String :=
  "You are a helpful garden center employee specializing in soil products. \nYour job is to help customers find the right soil products for their needs.\n\nAvailable products:\n"
    ++ productsJson ++
  "\n\nGuidelines:\n- Be friendly, warm, and patient (many customers are 55-70 years old)\n- Ask clarifying questions if needed (indoor/outdoor, vegetables/flowers, containers/beds)\n- Recommend specific products from the available list\n- Mention key benefits (drainage, nutrients, organic, etc.)\n- Keep responses concise (2-4 sentences)\n- If you don\x27t know something, offer to get a staff member\n\n"

/-- The full `systemPrompt` template literal. -/
def systemPromptText (productsJson userMessage : String) : String :=
  promptHeader productsJson ++ "Current customer question: " ++ userMessage

/-- The `messages` array sent to the chat-completions endpoint. -/
def chatMessages (productsJson userMessage : String)
    (conversationHistory : List ChatMessage) : List ChatMessage :=
  { role := "system", content := systemPromptText productsJson userMessage }
    :: conversationHistory ++ [{ role := "user", content := userMessage }]

/-!  ### Helper lemmas on the substring test -/

theorem leadsWith_iff (n h : List Char) :
    leadsWith n h = true ↔ ∃ s, h = n ++ s := by
  induction n generalizing h with
  | nil => simp [leadsWith]
  | cons a n ih =>
    cases h with
    | nil => simp [leadsWith]
    | cons b t =>
      simp only [leadsWith]
      by_cases hab : a = b
      · subst hab
        rw [if_pos rfl, ih]
        constructor
        · rintro ⟨s, rfl⟩; exact ⟨s, rfl⟩
        · rintro ⟨s, hs⟩
          injection hs with _ h2
          exact ⟨s, h2⟩
      · rw [if_neg hab]
        constructor
        · intro hf; exact (Bool.false_ne_true hf).elim
        · rintro ⟨s, hs⟩
          injection hs with h1 _
          exact absurd h1.symm hab

theorem containsSub_iff (n h : List Char) :
    containsSub n h = true ↔ ∃ p s, h = p ++ n ++ s := by
  induction h with
  | nil =>
    simp only [containsSub, List.isEmpty_iff]
    constructor
    · rintro rfl; exact ⟨[], [], rfl⟩
    · rintro ⟨p, s, hs⟩
      rcases List.append_eq_nil.mp (List.append_eq_nil.mp hs.symm).1 with ⟨_, hn⟩
      exact hn
  | cons b t ih =>
    simp only [containsSub, Bool.or_eq_true, leadsWith_iff, ih]
    constructor
    · rintro (⟨s, hs⟩ | ⟨p, s, rfl⟩)
      · exact ⟨[], s, by simpa using hs⟩
      · exact ⟨b :: p, s, rfl⟩
    · rintro ⟨p, s, hs⟩
      cases p with
      | nil => exact Or.inl ⟨s, by simpa using hs⟩
      | cons c p =>
        injection hs with h1 h2
        exact Or.inr ⟨p, s, h2⟩

theorem containsSub_middle (p n s : List Char) :
    containsSub n (p ++ n ++ s) = true :=
  (containsSub_iff n _).mpr ⟨p, s, rfl⟩

theorem containsSub_of_split (n h p s : List Char) (he : h = p ++ n ++ s) :
    containsSub n h = true :=
  he ▸ containsSub_middle p n s

/-- The underlying character list of a string concatenation. -/
theorem strData_append (s t : String) : (s ++ t).data = s.data ++ t.data := rfl

/-- Any member of a list contributes its image as a substring of the
comma-joined image list. -/
theorem joinComma_mem_split (f : String → String) (t : String) :
    ∀ ts : List String, t ∈ ts →
      ∃ p s, (joinComma (ts.map f)).data = p ++ (f t).data ++ s := by
  intro ts
  induction ts with
  | nil => intro hmem; cases hmem
  | cons a rest ih =>
    intro hmem
    cases rest with
    | nil =>
      have ha : t = a := by simpa using hmem
      subst ha
      exact ⟨[], [], by simp [joinComma]⟩
    | cons b r =>
      rcases List.mem_cons.mp hmem with h1 | h2
      · subst h1
        exact ⟨[], (", " ++ joinComma ((b :: r).map f)).data,
          by simp [joinComma, strData_append, List.append_assoc]⟩
      · rcases ih h2 with ⟨p, s, hp⟩
        refine ⟨(f a ++ ", ").data ++ p, s, ?_⟩
        simp only [List.map_cons] at hp
        simp [joinComma, strData_append, List.append_assoc, hp]

/-!  ### Claim theorems -/

/-- C1 (counterexample): the claimed "included if and only if its title
occurs as a case-insensitive substring of the reply" fails as soon as four
supplied products all have their titles in the reply: the fourth is
mentioned in the reply yet dropped by `slice(0, 3)`. -/
theorem recommended_iff_counterexample :
    mentioned "abcd" ⟨"d", 3⟩ = true ∧
    (⟨"d", 3⟩ : AvailProduct) ∈
      ([⟨"a", 0⟩, ⟨"b", 1⟩, ⟨"c", 2⟩, ⟨"d", 3⟩] : List AvailProduct) ∧
    (⟨"d", 3⟩ : AvailProduct) ∉
      recommendedProducts "abcd" [⟨"a", 0⟩, ⟨"b", 1⟩, ⟨"c", 2⟩, ⟨"d", 3⟩] :=
  ⟨by decide, by decide, by decide⟩

/-- C1 (amended): the recommended-products list is an order-preserving
subsequence of `availableProducts` of length at most 3; every included
product comes from `availableProducts` and has its title as a
case-insensitive substring of the reply; and conversely, whenever at most
three supplied products match, every matching product is included (the
list consists of the first up-to-three matches in input order). -/
theorem recommended_take3_amended (aiResponse : String) (avail : List AvailProduct) :
    (recommendedProducts aiResponse avail).Sublist avail ∧
    (recommendedProducts aiResponse avail).length ≤ 3 ∧
    (∀ p ∈ recommendedProducts aiResponse avail,
      p ∈ avail ∧ mentioned aiResponse p = true) ∧
    ((avail.filter (mentioned aiResponse)).length ≤ 3 →
      ∀ p ∈ avail, mentioned aiResponse p = true →
        p ∈ recommendedProducts aiResponse avail) := by
  refine ⟨?_, ?_, ?_, ?_⟩
  · exact (List.take_sublist 3 _).trans (List.filter_sublist avail)
  · unfold recommendedProducts
    rw [List.length_take]
    exact Nat.min_le_left _ _
  · intro p hp
    have hp' : p ∈ avail.filter (mentioned aiResponse) := List.take_subset 3 _ hp
    exact ⟨(List.mem_filter.mp hp').1, (List.mem_filter.mp hp').2⟩
  · intro hlen p hpa hpm
    unfold recommendedProducts
    rw [List.take_of_length_le hlen]
    exact List.mem_filter.mpr ⟨hpa, hpm⟩

/-- Witness for `recommended_take3_amended` at a concrete input. -/
theorem recommended_take3_amended_witness :
    (⟨"EcoMix Potting Soil", 1⟩ : AvailProduct) ∈
      recommendedProducts "We suggest ecomix potting soil!"
        [⟨"Cactus Blend", 0⟩, ⟨"EcoMix Potting Soil", 1⟩] :=
  (recommended_take3_amended "We suggest ecomix potting soil!"
      [⟨"Cactus Blend", 0⟩, ⟨"EcoMix Potting Soil", 1⟩]).2.2.2
    (by decide) ⟨"EcoMix Potting Soil", 1⟩ (by decide) (by decide)

/-- C2 (counterexample): the specification's claimed field set names
`bag_size` and `voice_script`, but the object the code builds has no such
keys — its keys are `normalizedFieldNames`, with `bag_size_cf` and
`voice_script_30S` instead. -/
theorem normalize_fields_counterexample :
    (normalizeRecord ⟨"rec0", fun _ => none⟩).map Prod.fst ≠ claimedFieldNames ∧
    "bag_size" ∉ (normalizeRecord ⟨"rec0", fun _ => none⟩).map Prod.fst ∧
    "voice_script" ∉ (normalizeRecord ⟨"rec0", fun _ => none⟩).map Prod.fst :=
  ⟨by decide, by decide, by decide⟩

/-- C2 (amended): for every store record the normalized product has exactly
the keys `normalizedFieldNames` (so `bag_size_cf` and `voice_script_30S`,
not `bag_size` and `voice_script`), each value a direct projection of the
corresponding store field; the hyphenated external names `bag-size-cf` and
`use-case` map to the underscored internal names `bag_size_cf` and
`use_case`. -/
theorem normalize_fields_amended (record : StoreRecord) :
    (normalizeRecord record).map Prod.fst = normalizedFieldNames ∧
    (normalizeRecord record).lookup "id" = some (some record.id) ∧
    (normalizeRecord record).lookup "product_id" = some (record.fields "product_id") ∧
    (normalizeRecord record).lookup "title" = some (record.fields "title") ∧
    (normalizeRecord record).lookup "brand" = some (record.fields "brand") ∧
    (normalizeRecord record).lookup "category" = some (record.fields "category") ∧
    (normalizeRecord record).lookup "tags" = some (record.fields "tags") ∧
    (normalizeRecord record).lookup "short_description"
      = some (record.fields "short_description") ∧
    (normalizeRecord record).lookup "price" = some (record.fields "price") ∧
    (normalizeRecord record).lookup "bag_size_cf" = some (record.fields "bag-size-cf") ∧
    (normalizeRecord record).lookup "in_stock" = some (record.fields "in_stock") ∧
    (normalizeRecord record).lookup "image_url" = some (record.fields "image_url") ∧
    (normalizeRecord record).lookup "use_case" = some (record.fields "use-case") ∧
    (normalizeRecord record).lookup "voice_script_30S"
      = some (record.fields "voice_script_30S") :=
  ⟨rfl, rfl, rfl, rfl, rfl, rfl, rfl, rfl, rfl, rfl, rfl, rfl, rfl, rfl⟩

/-- C3: when a category is supplied (truthy), the built filter contains the
exact-equality clause with the category value interpolated verbatim and
unescaped; in particular for the category `O'Brien`, which contains a
quote character, the resulting formula ends inside an unterminated string
literal, i.e. it is malformed. -/
theorem categoryClause_verbatim_unescaped (c : String) (tags : Option (List String))
    (h : truthy (some c) = true) :
    containsSub (categoryClause c).data (filterFormula (some c) tags).data = true ∧
    ('\x27' ∈ "O\x27Brien".data ∧
      unterminatedQuote (filterFormula (some "O\x27Brien") none) = true) := by
  constructor
  · cases htp : tagsPresent tags with
    | false =>
      exact containsSub_of_split _ _ ("AND({in_stock} = TRUE()" ++ ", ").data (")").data
        (by simp [filterFormula, h, htp, strData_append, List.append_assoc])
    | true =>
      exact containsSub_of_split _ _ ("AND({in_stock} = TRUE()" ++ ", ").data
        ((", OR(" ++ joinComma ((tags.getD []).map tagCondition) ++ ")") ++ ")").data
        (by simp [filterFormula, h, htp, strData_append, List.append_assoc])
  · exact ⟨by decide, by decide⟩

/-- Witness for `categoryClause_verbatim_unescaped` at a concrete input. -/
theorem categoryClause_verbatim_unescaped_witness :
    containsSub (categoryClause "O\x27Brien").data
      (filterFormula (some "O\x27Brien") none).data = true :=
  (categoryClause_verbatim_unescaped "O\x27Brien" none rfl).1

/-- C4: with no truthy category and no non-empty tag list, the built filter
is exactly the in-stock clause. -/
theorem filterFormula_no_category_no_tags (category : Option String)
    (tags : Option (List String))
    (hc : truthy category = false) (ht : tagsPresent tags = false) :
    filterFormula category tags = "AND({in_stock} = TRUE())" := by
  simp only [filterFormula, hc, ht, if_false, Bool.false_eq_true]
  decide

/-- Witness for `filterFormula_no_category_no_tags`: absent category,
empty tag list. -/
theorem filterFormula_no_category_no_tags_witness :
    filterFormula none (some []) = "AND({in_stock} = TRUE())" :=
  filterFormula_no_category_no_tags none (some []) rfl rfl

/-- C5: for every non-empty tag list, the built filter contains the
mandatory in-stock clause, an `, OR(`-conjoined disjunction group, and one
`FIND('tag', {tags})` containment predicate per supplied tag — whether or
not a category clause is present. -/
theorem filterFormula_tags_disjunction (category : Option String)
    (ts : List String) (h : ts ≠ []) :
    containsSub ("AND({in_stock} = TRUE()").data
      (filterFormula category (some ts)).data = true ∧
    containsSub (", OR(").data (filterFormula category (some ts)).data = true ∧
    ∀ t ∈ ts,
      containsSub (tagCondition t).data (filterFormula category (some ts)).data = true := by
  have htags : tagsPresent (some ts) = true := by
    simp [tagsPresent, List.length_pos, h]
  cases hc : truthy category with
  | false =>
    refine ⟨?_, ?_, ?_⟩
    · exact containsSub_of_split _ _ []
        ((", OR(" ++ joinComma (ts.map tagCondition) ++ ")") ++ ")").data
        (by simp [filterFormula, hc, htags, strData_append, List.append_assoc])
    · exact containsSub_of_split _ _ ("AND({in_stock} = TRUE()").data
        ((joinComma (ts.map tagCondition) ++ ")") ++ ")").data
        (by simp [filterFormula, hc, htags, strData_append, List.append_assoc])
    · intro t hmem
      rcases joinComma_mem_split tagCondition t ts hmem with ⟨p, s, hp⟩
      refine containsSub_of_split _ _
        (("AND({in_stock} = TRUE()" ++ ", OR(").data ++ p)
        (s ++ (")" ++ ")").data) ?_
      simp [filterFormula, hc, htags, strData_append, List.append_assoc, hp]
  | true =>
    refine ⟨?_, ?_, ?_⟩
    · exact containsSub_of_split _ _ []
        ((", " ++ categoryClause (category.getD "")
          ++ ", OR(" ++ joinComma (ts.map tagCondition) ++ ")") ++ ")").data
        (by simp [filterFormula, hc, htags, strData_append, List.append_assoc])
    · exact containsSub_of_split _ _
        ("AND({in_stock} = TRUE()" ++ ", " ++ categoryClause (category.getD "")).data
        ((joinComma (ts.map tagCondition) ++ ")") ++ ")").data
        (by simp [filterFormula, hc, htags, strData_append, List.append_assoc])
    · intro t hmem
      rcases joinComma_mem_split tagCondition t ts hmem with ⟨p, s, hp⟩
      refine containsSub_of_split _ _
        (("AND({in_stock} = TRUE()" ++ ", " ++ categoryClause (category.getD "")
          ++ ", OR(").data ++ p)
        (s ++ (")" ++ ")").data) ?_
      simp [filterFormula, hc, htags, strData_append, List.append_assoc, hp]

/-- Witness for `filterFormula_tags_disjunction` at a concrete input. -/
theorem filterFormula_tags_disjunction_witness :
    containsSub (tagCondition "organic").data
      (filterFormula none (some ["organic", "drainage"])).data = true :=
  (filterFormula_tags_disjunction none ["organic", "drainage"] (by decide)).2.2
    "organic" (by decide)

/-- C6: two search requests that agree on `category` and `tags` produce
identical store-query parameters (filter formula, record cap, sort) — the
free-text `query` field never influences filtering. -/
theorem searchParams_query_independent (r₁ r₂ : SearchRequest)
    (hc : r₁.category = r₂.category) (ht : r₁.tags = r₂.tags) :
    searchParams r₁ = searchParams r₂ := by
  simp [searchParams, hc, ht]

/-- Witness for `searchParams_query_independent`: requests differing only
in `query`. -/
theorem searchParams_query_independent_witness :
    searchParams ⟨some "best soil for tomatoes", some "potting", some ["organic"]⟩
      = searchParams ⟨some "mulch please", some "potting", some ["organic"]⟩ :=
  searchParams_query_independent _ _ rfl rfl

/-- C8: when the provider reply carries a transcript string at the expected
nested path, `/api/transcribe` answers 200 with exactly that string. -/
theorem transcribe_roundtrip (d : DgResponse) (s : String)
    (h : extractTranscript d = some (some s)) :
    transcribeHandler (.ok d) = ⟨200, .transcriptJson (some s)⟩ := by
  simp [transcribeHandler, h]

/-- Witness for `transcribe_roundtrip` at a concrete nested reply. -/
theorem transcribe_roundtrip_witness :
    transcribeHandler (.ok ⟨some ⟨[⟨[⟨some "hello garden"⟩]⟩]⟩⟩)
      = ⟨200, .transcriptJson (some "hello garden")⟩ :=
  transcribe_roundtrip ⟨some ⟨[⟨[⟨some "hello garden"⟩]⟩]⟩⟩ "hello garden" rfl

/-- C9: the message sequence is [system instruction] ++ history ++ [user
message]; the user message ends the system instruction right after the
text `Current customer question: `, and appears again as the final
user-role message — so it is sent to the model twice. -/
theorem chatMessages_structure (productsJson userMessage : String)
    (history : List ChatMessage) :
    chatMessages productsJson userMessage history
      = { role := "system", content := systemPromptText productsJson userMessage }
          :: history ++ [{ role := "user", content := userMessage }] ∧
    (∃ pre : List Char, (systemPromptText productsJson userMessage).data
      = pre ++ ("Current customer question: " ++ userMessage).data) ∧
    (∃ front : List ChatMessage, chatMessages productsJson userMessage history
      = front ++ [{ role := "user", content := userMessage }]) ∧
    containsSub userMessage.data (systemPromptText productsJson userMessage).data = true := by
  refine ⟨rfl, ?_, ?_, ?_⟩
  · exact ⟨(promptHeader productsJson).data,
      by simp [systemPromptText, strData_append, List.append_assoc]⟩
  · exact ⟨{ role := "system", content := systemPromptText productsJson userMessage }
      :: history, rfl⟩
  · exact containsSub_of_split _ _
      ((promptHeader productsJson ++ "Current customer question: ").data) []
      (by simp [systemPromptText, strData_append, List.append_assoc])

/-- C10: with no `audio` multipart field, `req.file.buffer` throws before
the outbound call, so the provider is never invoked and the endpoint
answers the same fixed 500 body used for provider failures — a missing
upload is indistinguishable from a provider outage. -/
theorem transcribe_missing_file :
    (∀ call : Except Unit DgResponse,
      transcribeEndpoint none call = (err500 "Transcription failed", false)) ∧
    (∀ f : UploadedFile,
      transcribeEndpoint (some f) (.error ()) = (err500 "Transcription failed", true)) :=
  ⟨fun _ => rfl, fun _ => rfl⟩

end GardenVoice
